import Mathlib

/-!
Shallow embedding of
src/base_layer/core/src/base_node/states/horizon_state_sync/validators.rs
(the horizon-state-sync validators of the Tari base layer).

Machine integers (u64, usize) are modelled as Nat: all arithmetic in the
source is either saturating subtraction (Nat subtraction) or additions of
heights and list lengths that cannot overflow at the sizes considered here.
Fallible operations return Except.  External collaborators (storage engine,
consensus rules, retargeting helper, commitment factory) appear as explicit
data so that every definition is executable.
-/

/-- The proof-of-work algorithm tag carried by a header (fixed small enum
in the source: Monero or Blake). -/
inductive PowAlgo where
  | monero
  | blake
deriving DecidableEq, Repr

/-- The proof-of-work record embedded in a block header.  The source field
achieved difficulty is a method computed from the header content by external
PoW code; see BlockHeader below. -/
structure ProofOfWork where
  pow_algo : PowAlgo
  target_difficulty : Nat
deriving DecidableEq, Repr

/-- Modelled from the spec: a block header.  The fields height, timestamp,
pow and total kernel offset are the ones the validators read directly.  The
source methods hash() and achieved_difficulty() are implemented by external
hashing / proof-of-work code that is not part of this file, so they are
modelled as opaque per-header data fields (the spec describes them as values
derived from the header content). -/
structure BlockHeader where
  height : Nat
  timestamp : Nat
  pow : ProofOfWork
  /-- BlindingFactor scalar; scalars form an additive group, modelled as Int. -/
  total_kernel_offset : Int
  /-- Result of the external BlockHeader.hash() method. -/
  hash : Nat
  /-- Result of the external BlockHeader.achieved_difficulty() method. -/
  achieved_difficulty : Nat
deriving DecidableEq, Repr

/-- A homomorphic commitment.  The external commitment factory commits a
blinding scalar k and a value v to k\*G + v\*H in the Ristretto group; the
validators only use commitments through commit, group addition and exact
equality, so the algebra is modelled by the universal additive pair
(blinding total, value total). -/
abbrev Commitment := Int × Int

/-- The external Pedersen commitment factory: commit a blinding factor and
a value. -/
def commit (k v : Int) : Commitment := (k, v)

/-- Unspent transaction output; the validators only read its commitment. -/
structure UTXO where
  commitment : Commitment
deriving DecidableEq, Repr

/-- Transaction kernel; the validators only read its excess commitment. -/
structure Kernel where
  excess : Commitment
deriving DecidableEq, Repr

/-- Consensus rules as read by the validators: the consensus constants,
the genesis block hash and the emission schedule, flattened into one
record of read-only accessors. -/
structure ConsensusManager where
  genesis_block_hash : Nat
  difficulty_block_window : Nat
  diff_target_block_interval : Nat
  difficulty_max_block_interval : Nat
  min_pow_difficulty : PowAlgo → Nat
  median_timestamp_count : Nat
  /-- emission_schedule().supply_at_block -/
  supply_at_block : Nat → Nat

/-- ChainStorageError is only ever converted to a string by this file, so
it is modelled as the string itself. -/
abbrev ChainStorageError := String

/-- The storage collaborator (BlockchainDatabase): the four read operations
the validators use, each fallible. -/
structure BlockchainDatabase where
  fetch_tip_header : Except ChainStorageError BlockHeader
  fetch_headers : List Nat → Except ChainStorageError (List BlockHeader)
  fetch_all_utxos : Except ChainStorageError (List UTXO)
  fetch_all_kernels : Except ChainStorageError (List Kernel)

/-- Error taxonomy of the source (proof_of_work::PowError variants used
here). -/
inductive PowError where
  | InvalidProofOfWork
  | InvalidTargetDifficulty
  | AchievedDifficultyTooLow
deriving DecidableEq, Repr

/-- blocks::BlockHeaderValidationError variants used here. -/
inductive BlockHeaderValidationError where
  | ProofOfWorkError (e : PowError)
  | InvalidTimestamp
deriving DecidableEq, Repr

/-- validation::ValidationError variants used here; CustomError carries the
message built by ValidationError.custom_error / CustomError(..). -/
inductive ValidationError where
  | BlockHeaderError (e : BlockHeaderValidationError)
  | CustomError (msg : String)
deriving DecidableEq, Repr

/-- The external retargeting helper proof_of_work::get_target_difficulty.
Its algorithm lives outside this file, so the validators are parametrised
by an arbitrary implementation of its interface: arguments are the
(timestamp, target difficulty) window, the difficulty block window, the
target block interval, the minimum PoW difficulty for the algorithm and
the maximum block interval. -/
abbrev GetTargetDifficulty :=
  List (Nat × Nat) → Nat → Nat → Nat → Nat → Except String Nat

/-- HorizonHeadersValidator.is_genesis: height is zero and the hash equals
the configured genesis block hash. -/
def is_genesis (rules : ConsensusManager) (block_header : BlockHeader) : Bool :=
  block_header.height == 0 && rules.genesis_block_hash == block_header.hash

/-- Insert into a sorted list of timestamps (ascending). -/
def insertSorted (x : Nat) : List Nat → List Nat
  | [] => [x]
  | y :: ys => if x ≤ y then x :: y :: ys else y :: insertSorted x ys

/-- Insertion sort for timestamp lists. -/
def sortTimestamps (l : List Nat) : List Nat := l.foldr insertSorted []

/-- Modelled from the spec: the external helper
proof_of_work::get_median_timestamp, which is not under src/.  The spec:
sort the timestamps; for odd length take the middle element; for even
length pick a consistent tie rule, the lower-middle element being the
documented example; none only for the empty list. -/
def get_median_timestamp (timestamps : List Nat) : Option Nat :=
  match timestamps with
  | [] => none
  | _ =>
    let sorted := sortTimestamps timestamps
    some (sorted.getD ((sorted.length - 1) / 2) 0)

/-- HorizonHeadersValidator.check_median_timestamp.  The expect call on
get_median_timestamp in the source is a panic that is unreachable because
the list always contains the appended tip timestamp; the branch is kept as
an (unreachable) custom error carrying the expect message. -/
def check_median_timestamp (rules : ConsensusManager) (db : BlockchainDatabase)
    (block_header tip_header : BlockHeader) : Except ValidationError Unit :=
  if is_genesis rules block_header then Except.ok ()
  else
    let start_height := block_header.height - rules.median_timestamp_count
    if start_height = tip_header.height then Except.ok ()
    else
      let block_nums := List.range' start_height (tip_header.height - start_height)
      match db.fetch_headers block_nums with
      | Except.error e => Except.error (ValidationError.CustomError e)
      | Except.ok headers =>
        let timestamps := (headers.map (fun h => h.timestamp)) ++ [tip_header.timestamp]
        match get_median_timestamp timestamps with
        | none =>
          Except.error (ValidationError.CustomError
            "get_median_timestamp only returns None if timestamps is empty")
        | some median_timestamp =>
          if block_header.timestamp < median_timestamp then
            Except.error (ValidationError.BlockHeaderError
              BlockHeaderValidationError.InvalidTimestamp)
          else Except.ok ()

/-- Does the header carry the given pow algorithm (the filter used by the
target difficulty collection). -/
def algoMatch (algo : PowAlgo) (h : BlockHeader) : Bool :=
  h.pow.pow_algo == algo

/-- Project a header to its (timestamp, target difficulty) pair. -/
def tdProj (h : BlockHeader) : Nat × Nat :=
  (h.timestamp, h.pow.target_difficulty)

/-- Fuel-driven worker for chunksOf; the fuel starts at the list length and
never runs out for a positive chunk size. -/
def chunksOfGo (n : Nat) : Nat → List Nat → List (List Nat)
  | _, [] => []
  | 0, l => [l]
  | fuel + 1, x :: xs =>
    (x :: xs).take n :: chunksOfGo n fuel ((x :: xs).drop n)

/-- Rust slice chunks(n): split a list into consecutive chunks of size n,
the last chunk possibly shorter (n is positive at every call site, guarded
by the early return in fetch_target_difficulties). -/
def chunksOf (n : Nat) (l : List Nat) : List (List Nat) :=
  chunksOfGo n l.length l

/-- The chunk loop inside HorizonHeadersValidator.fetch_target_difficulties:
fetch each batch of heights, keep the headers matching the algorithm, take
at most the remaining space in the window, and stop as soon as the window
is full. -/
def td_loop (db : BlockchainDatabase) (algo : PowAlgo) (block_window : Nat)
    (acc : List (Nat × Nat)) : List (List Nat) → Except ValidationError (List (Nat × Nat))
  | [] => Except.ok acc
  | block_nums :: rest =>
    match db.fetch_headers block_nums with
    | Except.error err => Except.error (ValidationError.CustomError err)
    | Except.ok headers =>
      let max_remaining := block_window - acc.length
      let acc2 := acc ++ (((headers.filter (algoMatch algo)).take max_remaining).map tdProj)
      if acc2.length = block_window then Except.ok acc2
      else td_loop db algo block_window acc2 rest

/-- HorizonHeadersValidator.fetch_target_difficulties: walk the heights
0..=tip in descending order in batches of the difficulty block window,
collect matching (timestamp, difficulty) pairs, then reverse to ascending
order. -/
def fetch_target_difficulties (rules : ConsensusManager) (db : BlockchainDatabase)
    (block_header tip_header : BlockHeader) :
    Except ValidationError (List (Nat × Nat)) :=
  let block_window := rules.difficulty_block_window
  let start_height := tip_header.height - block_window
  if start_height = tip_header.height then Except.ok []
  else
    let heights := (List.range (tip_header.height + 1)).reverse
    match td_loop db block_header.pow.pow_algo block_window [] (chunksOf block_window heights) with
    | Except.error e => Except.error e
    | Except.ok target_difficulties => Except.ok target_difficulties.reverse

/-- HorizonHeadersValidator.check_achieved_and_target_difficulty: compute
the target (1 for genesis, otherwise via the retargeting helper on the
collected window), then require the recorded target to equal it and the
achieved difficulty to reach it. -/
def check_achieved_and_target_difficulty (rules : ConsensusManager)
    (db : BlockchainDatabase) (gtd : GetTargetDifficulty)
    (block_header tip_header : BlockHeader) : Except ValidationError Unit :=
  let pow_algo := block_header.pow.pow_algo
  let targetRes : Except ValidationError Nat :=
    if is_genesis rules block_header then Except.ok 1
    else
      match fetch_target_difficulties rules db block_header tip_header with
      | Except.error e => Except.error e
      | Except.ok target_difficulties =>
        match gtd target_difficulties rules.difficulty_block_window
            rules.diff_target_block_interval (rules.min_pow_difficulty pow_algo)
            rules.difficulty_max_block_interval with
        | Except.ok t => Except.ok t
        | Except.error _ =>
          Except.error (ValidationError.BlockHeaderError
            (BlockHeaderValidationError.ProofOfWorkError PowError.InvalidProofOfWork))
  match targetRes with
  | Except.error e => Except.error e
  | Except.ok target =>
    if block_header.pow.target_difficulty ≠ target then
      Except.error (ValidationError.BlockHeaderError
        (BlockHeaderValidationError.ProofOfWorkError PowError.InvalidTargetDifficulty))
    else if block_header.achieved_difficulty < target then
      Except.error (ValidationError.BlockHeaderError
        (BlockHeaderValidationError.ProofOfWorkError PowError.AchievedDifficultyTooLow))
    else Except.ok ()

/-- StatelessValidation for HorizonHeadersValidator: fetch the tip header,
then run the median timestamp check and the difficulty checks in order. -/
def HorizonHeadersValidator.validate (rules : ConsensusManager)
    (db : BlockchainDatabase) (gtd : GetTargetDifficulty)
    (header : BlockHeader) : Except ValidationError Unit :=
  match db.fetch_tip_header with
  | Except.error e => Except.error (ValidationError.CustomError e)
  | Except.ok tip_header =>
    match check_median_timestamp rules db header tip_header with
    | Except.error e => Except.error e
    | Except.ok _ => check_achieved_and_target_difficulty rules db gtd header tip_header

/-! ## The chunked header iterator (HeaderIter) -/

/-- The mutable state of HeaderIter (the source struct also holds the
database reference, which is passed separately to each pull here). -/
structure IterState where
  chunk : List BlockHeader
  chunk_size : Nat
  cursor : Nat
  is_error : Bool
  max_height : Nat
deriving DecidableEq, Repr

/-- HeaderIter.new. -/
def HeaderIter.new (max_height : Nat) (chunk_size : Nat) : IterState :=
  { chunk := [], chunk_size := chunk_size, cursor := 0, is_error := false,
    max_height := max_height }

/-- HeaderIter.next_chunk: the inclusive range cursor..=min(cursor +
chunk_size, max_height), empty once the cursor passes max_height. -/
def IterState.next_chunk (st : IterState) : List Nat :=
  let upper_bound := min (st.cursor + st.chunk_size) st.max_height
  List.range' st.cursor (upper_bound + 1 - st.cursor)

/-- Decidable equality for Except values, needed to evaluate concrete runs
of the iterator. -/
instance instDecEqExcept {ε α : Type} [DecidableEq ε] [DecidableEq α] :
    DecidableEq (Except ε α) := fun x y =>
  match x, y with
  | Except.ok a, Except.ok b =>
    if h : a = b then isTrue (congrArg Except.ok h)
    else isFalse (fun hc => h (Except.ok.inj hc))
  | Except.error a, Except.error b =>
    if h : a = b then isTrue (congrArg Except.error h)
    else isFalse (fun hc => h (Except.error.inj hc))
  | Except.ok _, Except.error _ => isFalse (fun hc => Except.noConfusion hc)
  | Except.error _, Except.ok _ => isFalse (fun hc => Except.noConfusion hc)

/-- What one pull of the iterator produces.  panicked models the source
expression self.chunk.remove(0), which panics when the chunk is empty. -/
inductive PullStep where
  | finished
  | panicked
  | yielded (item : Except ChainStorageError BlockHeader) (st : IterState)
deriving DecidableEq, Repr

/-- Vec::remove(0) on the buffered chunk: yields the front header, or
panics when the chunk is empty. -/
def popFront (st : IterState) : PullStep :=
  match st.chunk with
  | [] => PullStep.panicked
  | x :: rest => PullStep.yielded (Except.ok x) { st with chunk := rest }

/-- Iterator::next for HeaderIter.  The second component counts the storage
fetch calls performed by this pull (0 or 1). -/
def HeaderIter.next (st : IterState) (db : BlockchainDatabase) : PullStep × Nat :=
  if st.is_error then (PullStep.finished, 0)
  else if st.chunk = [] then
    let block_nums := st.next_chunk
    if block_nums = [] then (PullStep.finished, 0)
    else
      match db.fetch_headers block_nums with
      | Except.ok headers =>
        (popFront { st with cursor := st.cursor + headers.length,
                            chunk := st.chunk ++ headers }, 1)
      | Except.error err =>
        (PullStep.yielded (Except.error err) { st with is_error := true }, 1)
  else (popFront st, 0)

/-- How a bounded run of the iterator ended. -/
inductive Outcome where
  | finished
  | panicked
  | outOfFuel
deriving DecidableEq, Repr

/-- The result of pulling the iterator repeatedly: the items produced, the
way the run ended, and how many storage fetches were issued. -/
structure RunResult where
  items : List (Except ChainStorageError BlockHeader)
  outcome : Outcome
  fetches : Nat
deriving DecidableEq, Repr

/-- Pull the iterator up to fuel times, collecting everything it yields.
The source for-loops over the iterator without a bound; every theorem below
shows that the supplied fuel is not exhausted for the storages considered,
so the fuel is only a well-foundedness device. -/
def iterRun : Nat → IterState → BlockchainDatabase → RunResult
  | 0, _, _ => { items := [], outcome := Outcome.outOfFuel, fetches := 0 }
  | fuel + 1, st, db =>
    match HeaderIter.next st db with
    | (PullStep.finished, k) => { items := [], outcome := Outcome.finished, fetches := k }
    | (PullStep.panicked, k) => { items := [], outcome := Outcome.panicked, fetches := k }
    | (PullStep.yielded x st2, k) =>
      let r := iterRun fuel st2 db
      { items := x :: r.items, outcome := r.outcome, fetches := k + r.fetches }

/-! ## The final state validator -/

/-- The loop body of HorizonFinalStateValidator.fetch_total_offset_commitment:
fold the kernel offsets of the yielded headers, propagating the first error
item as a custom validation error. -/
def accumulate_offsets : List (Except ChainStorageError BlockHeader) → Int →
    Except ValidationError Int
  | [], acc => Except.ok acc
  | Except.error e :: _, _ => Except.error (ValidationError.CustomError e)
  | Except.ok h :: rest, acc => accumulate_offsets rest (acc + h.total_kernel_offset)

/-- HorizonFinalStateValidator.fetch_total_offset_commitment: sum the
total_kernel_offset of all headers up to the horizon height (via HeaderIter
with chunk size 100) and commit the total with value 0. -/
def fetch_total_offset_commitment (db : BlockchainDatabase) (height : Nat) :
    Except ValidationError Commitment :=
  let r := iterRun (height + 2) (HeaderIter.new height 100) db
  match accumulate_offsets r.items 0 with
  | Except.error e => Except.error e
  | Except.ok total_offset => Except.ok (commit total_offset 0)

/-- HorizonFinalStateValidator.fetch_aggregate_utxo_commitment: sum of the
commitments of the whole UTXO set. -/
def fetch_aggregate_utxo_commitment (db : BlockchainDatabase) :
    Except ValidationError Commitment :=
  match db.fetch_all_utxos with
  | Except.error e => Except.error (ValidationError.CustomError e)
  | Except.ok utxos =>
    Except.ok ((utxos.map (fun u => u.commitment)).foldl (· + ·) (0, 0))

/-- HorizonFinalStateValidator.get_emission_commitment_at: commit the
emission value at the height with the default (zero) blinding factor. -/
def get_emission_commitment_at (rules : ConsensusManager) (height : Nat) : Commitment :=
  commit 0 (rules.supply_at_block height)

/-- HorizonFinalStateValidator.fetch_aggregate_kernel_excess: sum of the
excess commitments of the whole kernel set. -/
def fetch_aggregate_kernel_excess (db : BlockchainDatabase) :
    Except ValidationError Commitment :=
  match db.fetch_all_kernels with
  | Except.error e => Except.error (ValidationError.CustomError e)
  | Except.ok kernels =>
    Except.ok ((kernels.map (fun k => k.excess)).foldl (· + ·) (0, 0))

/-- The message of the balance failure error built by
HorizonFinalStateValidator.validate; it carries the horizon height. -/
def balance_mismatch_message (height : Nat) : String :=
  "Final state validation failed: The UTXO commitment did not equal the expected emission at height "
    ++ toString height

/-- StatelessValidation for HorizonFinalStateValidator: check that the UTXO
commitment equals emission plus kernel excess plus the total offset
commitment. -/
def HorizonFinalStateValidator.validate (rules : ConsensusManager)
    (db : BlockchainDatabase) (horizon_height : Nat) : Except ValidationError Unit :=
  match fetch_total_offset_commitment db horizon_height with
  | Except.error e => Except.error e
  | Except.ok total_offset =>
    match fetch_aggregate_utxo_commitment db with
    | Except.error e => Except.error e
    | Except.ok utxo_commitment =>
      let emission_h := get_emission_commitment_at rules horizon_height
      match fetch_aggregate_kernel_excess db with
      | Except.error e => Except.error e
      | Except.ok kernel_excess =>
        if utxo_commitment ≠ (emission_h + kernel_excess) + total_offset then
          Except.error (ValidationError.CustomError
            (balance_mismatch_message horizon_height))
        else Except.ok ()

/-! ## Notions used to state the claims -/

/-- A storage that answers every header request exactly: for each requested
height it returns the canonical header at that height, in request order. -/
def ExactHeaders (db : BlockchainDatabase) (f : Nat → BlockHeader) : Prop :=
  ∀ ns, db.fetch_headers ns = Except.ok (ns.map f)

/-- A storage that answers every nonempty header request with at least one
and at most the requested number of headers. -/
def PartialNonemptyHeaders (db : BlockchainDatabase) : Prop :=
  ∀ ns : List Nat, ns ≠ [] → ∃ hs, db.fetch_headers ns = Except.ok hs
    ∧ 1 ≤ hs.length ∧ hs.length ≤ ns.length

/-- The last min(n, length) elements of a list, in order: the claims speak
of the n most recent entries of an ascending list. -/
def lastN (n : Nat) (l : List α) : List α := l.drop (l.length - n)

/-- The window the C4 claim describes: the at-most-W most recent
(timestamp, target difficulty) pairs among the headers of heights 0..=tip
whose algorithm matches, in ascending height order. -/
def mostRecentWindow (W : Nat) (algo : PowAlgo) (f : Nat → BlockHeader)
    (tip_height : Nat) : List (Nat × Nat) :=
  lastN W ((((List.range (tip_height + 1)).map f).filter (algoMatch algo)).map tdProj)

/-- The sum of the kernel offsets of the canonical headers at heights
0..=height: the quantity the final state validator commits. -/
def offsetTotal (f : Nat → BlockHeader) (height : Nat) : Int :=
  ((List.range (height + 1)).map (fun n => (f n).total_kernel_offset)).sum

/-- Sum of the UTXO commitments, as the C2 claim states it. -/
def utxoSum (us : List UTXO) : Commitment :=
  (us.map (fun u => u.commitment)).foldl (· + ·) (0, 0)

/-- Sum of the kernel excess commitments, as the C2 claim states it. -/
def kernelSum (ks : List Kernel) : Commitment :=
  (ks.map (fun k => k.excess)).foldl (· + ·) (0, 0)

/-- The median value that get_median_timestamp computes on a nonempty
list (sorted, lower-middle tie rule). -/
def medianVal (l : List Nat) : Nat :=
  (sortTimestamps l).getD (((sortTimestamps l).length - 1) / 2) 0

/-! ## Concrete instances used by witnesses and counterexamples -/

/-- Consensus rules shared by several concrete scenarios: genesis hash 99,
difficulty window 3, median window 5, zero emission. -/
def cRules : ConsensusManager :=
  { genesis_block_hash := 99, difficulty_block_window := 3,
    diff_target_block_interval := 1, difficulty_max_block_interval := 1,
    min_pow_difficulty := fun _ => 1, median_timestamp_count := 5,
    supply_at_block := fun _ => 0 }

/-- C1 scenario: a tip header for the storage to return. -/
def c1Tip : BlockHeader :=
  { height := 10, timestamp := 50, pow := { pow_algo := PowAlgo.blake, target_difficulty := 1 },
    total_kernel_offset := 0, hash := 11, achieved_difficulty := 1 }

/-- C1 scenario: storage whose tip fetch succeeds. -/
def c1Db : BlockchainDatabase :=
  { fetch_tip_header := Except.ok c1Tip,
    fetch_headers := fun ns => Except.ok (ns.map (fun _ => c1Tip)),
    fetch_all_utxos := Except.ok [], fetch_all_kernels := Except.ok [] }

/-- A retargeting model that always returns 1. -/
def cGtdOne : GetTargetDifficulty := fun _ _ _ _ _ => Except.ok 1

/-- C1 counterexample input: a header at height 0 whose hash equals the
configured genesis hash but whose recorded target difficulty is 7. -/
def c1BadHeader : BlockHeader :=
  { height := 0, timestamp := 123, pow := { pow_algo := PowAlgo.blake, target_difficulty := 7 },
    total_kernel_offset := 0, hash := 99, achieved_difficulty := 1000 }

/-- C1 witness input: a genesis header with recorded target 1. -/
def c1GoodHeader : BlockHeader :=
  { height := 0, timestamp := 123, pow := { pow_algo := PowAlgo.blake, target_difficulty := 1 },
    total_kernel_offset := 0, hash := 99, achieved_difficulty := 1 }

/-- C2 scenario: canonical headers, each contributing kernel offset 1. -/
def c2F (n : Nat) : BlockHeader :=
  { height := n, timestamp := 0, pow := { pow_algo := PowAlgo.blake, target_difficulty := 1 },
    total_kernel_offset := 1, hash := n, achieved_difficulty := 1 }

/-- C2 scenario: one UTXO whose commitment balances emission 10 plus the
three offsets of heights 0..=2. -/
def c2Utxos : List UTXO := [{ commitment := (3, 10) }]

/-- C2 scenario: one kernel with zero excess. -/
def c2Kernels : List Kernel := [{ excess := (0, 0) }]

/-- C2 scenario rules: emission 10 at every height. -/
def c2Rules : ConsensusManager :=
  { genesis_block_hash := 99, difficulty_block_window := 3,
    diff_target_block_interval := 1, difficulty_max_block_interval := 1,
    min_pow_difficulty := fun _ => 1, median_timestamp_count := 5,
    supply_at_block := fun _ => 10 }

/-- C2 scenario storage. -/
def c2Db : BlockchainDatabase :=
  { fetch_tip_header := Except.ok (c2F 2),
    fetch_headers := fun ns => Except.ok (ns.map c2F),
    fetch_all_utxos := Except.ok c2Utxos, fetch_all_kernels := Except.ok c2Kernels }

/-- C3 and C8 scenario: headers at heights 95..100 with timestamps
0,10,20,30,40,50 (height n maps to 10 * (n - 95)). -/
def c3F (n : Nat) : BlockHeader :=
  { height := n, timestamp := 10 * (n - 95),
    pow := { pow_algo := PowAlgo.blake, target_difficulty := 1 },
    total_kernel_offset := 0, hash := n, achieved_difficulty := 1 }

/-- C3 and C8 scenario storage: exact, tip at height 100. -/
def c3Db : BlockchainDatabase :=
  { fetch_tip_header := Except.ok (c3F 100),
    fetch_headers := fun ns => Except.ok (ns.map c3F),
    fetch_all_utxos := Except.ok [], fetch_all_kernels := Except.ok [] }

/-- A retargeting model that always returns 10. -/
def cGtdTen : GetTargetDifficulty := fun _ _ _ _ _ => Except.ok 10

/-- C3 counterexample input: non-genesis header whose achieved difficulty 5
is below the recomputed target 10 and whose recorded target 9 differs from
it as well. -/
def c3BadHeader : BlockHeader :=
  { height := 100, timestamp := 60, pow := { pow_algo := PowAlgo.blake, target_difficulty := 9 },
    total_kernel_offset := 0, hash := 55, achieved_difficulty := 5 }

/-- C3 witness input: recorded target matches the recomputed target 10 but
the achieved difficulty 5 falls short. -/
def c3WitHeader : BlockHeader :=
  { height := 100, timestamp := 60, pow := { pow_algo := PowAlgo.blake, target_difficulty := 10 },
    total_kernel_offset := 0, hash := 55, achieved_difficulty := 5 }

/-- C4 scenario: height 0 uses the other algorithm; heights 1..5 match with
timestamps 101..105 and target difficulties 201..205. -/
def c4F (n : Nat) : BlockHeader :=
  { height := n, timestamp := 100 + n,
    pow := { pow_algo := if n = 0 then PowAlgo.monero else PowAlgo.blake,
             target_difficulty := 200 + n },
    total_kernel_offset := 0, hash := n, achieved_difficulty := 1 }

/-- C4 scenario storage: exact, tip at height 5. -/
def c4Db : BlockchainDatabase :=
  { fetch_tip_header := Except.ok (c4F 5),
    fetch_headers := fun ns => Except.ok (ns.map c4F),
    fetch_all_utxos := Except.ok [], fetch_all_kernels := Except.ok [] }

/-- C4 scenario: the new header whose window is requested. -/
def c4Header : BlockHeader :=
  { height := 6, timestamp := 200, pow := { pow_algo := PowAlgo.blake, target_difficulty := 1 },
    total_kernel_offset := 0, hash := 77, achieved_difficulty := 1 }

/-- C4 counterexample: a chain whose only header (height 0) matches the
requested algorithm. -/
def c4bF (n : Nat) : BlockHeader :=
  { height := n, timestamp := 7, pow := { pow_algo := PowAlgo.blake, target_difficulty := 9 },
    total_kernel_offset := 0, hash := n, achieved_difficulty := 1 }

/-- C4 counterexample storage: exact, tip at height 0. -/
def c4bDb : BlockchainDatabase :=
  { fetch_tip_header := Except.ok (c4bF 0),
    fetch_headers := fun ns => Except.ok (ns.map c4bF),
    fetch_all_utxos := Except.ok [], fetch_all_kernels := Except.ok [] }

/-- C5 scenario: canonical headers for an exact storage. -/
def c5F (n : Nat) : BlockHeader :=
  { height := n, timestamp := 100 + n,
    pow := { pow_algo := PowAlgo.blake, target_difficulty := 200 + n },
    total_kernel_offset := (n : Int), hash := n, achieved_difficulty := 1 }

/-- C5 scenario storage: exact. -/
def c5Db : BlockchainDatabase :=
  { fetch_tip_header := Except.ok (c5F 250),
    fetch_headers := fun ns => Except.ok (ns.map c5F),
    fetch_all_utxos := Except.ok [], fetch_all_kernels := Except.ok [] }

/-- C6 scenario storage: every header fetch fails. -/
def c6Db : BlockchainDatabase :=
  { fetch_tip_header := Except.ok (c5F 0),
    fetch_headers := fun _ => Except.error "storage failure",
    fetch_all_utxos := Except.ok [], fetch_all_kernels := Except.ok [] }

/-- C7 counterexample storage: every header fetch succeeds but returns no
headers at all. -/
def c7Db : BlockchainDatabase :=
  { fetch_tip_header := Except.ok (c5F 0),
    fetch_headers := fun _ => Except.ok [],
    fetch_all_utxos := Except.ok [], fetch_all_kernels := Except.ok [] }

/-- C7 witness storage: every nonempty fetch returns exactly the first
requested header, fewer than requested whenever more than one was asked. -/
def c7PartialDb : BlockchainDatabase :=
  { fetch_tip_header := Except.ok (c5F 0),
    fetch_headers := fun ns => Except.ok ((ns.map c5F).take 1),
    fetch_all_utxos := Except.ok [], fetch_all_kernels := Except.ok [] }

/-- C10 scenario: a tip at height 0. -/
def c10Tip : BlockHeader :=
  { height := 0, timestamp := 0, pow := { pow_algo := PowAlgo.blake, target_difficulty := 1 },
    total_kernel_offset := 0, hash := 3, achieved_difficulty := 1 }

/-- C10 scenario storage. -/
def c10Db : BlockchainDatabase :=
  { fetch_tip_header := Except.ok c10Tip,
    fetch_headers := fun ns => Except.ok (ns.map (fun n =>
      { height := n, timestamp := 0, pow := { pow_algo := PowAlgo.blake, target_difficulty := 1 },
        total_kernel_offset := 0, hash := n, achieved_difficulty := 1 })),
    fetch_all_utxos := Except.ok [], fetch_all_kernels := Except.ok [] }

/-- C10 input: a well-typed header one million heights above the tip. -/
def c10Header : BlockHeader :=
  { height := 1000000, timestamp := 0, pow := { pow_algo := PowAlgo.blake, target_difficulty := 1 },
    total_kernel_offset := 0, hash := 3, achieved_difficulty := 1 }

/-- C8 failing input: a new header at height 101 with timestamp 25, below
the median 30 of the window timestamps. -/
def c8Header25 : BlockHeader :=
  { height := 101, timestamp := 25, pow := { pow_algo := PowAlgo.blake, target_difficulty := 1 },
    total_kernel_offset := 0, hash := 101, achieved_difficulty := 1 }

/-- C8 passing input: the same header with timestamp 35. -/
def c8Header35 : BlockHeader :=
  { height := 101, timestamp := 35, pow := { pow_algo := PowAlgo.blake, target_difficulty := 1 },
    total_kernel_offset := 0, hash := 101, achieved_difficulty := 1 }


/-! ## Helper lemmas -/


/-- Reversing, taking a prefix, and reversing back takes the suffix. -/

theorem reverse_take_reverse (l : List α) (n : Nat) :
    (l.reverse.take n).reverse = lastN n l := by
  induction l with
  | nil => simp [lastN]
  | cons x xs ih =>
    simp only [List.reverse_cons, List.take_append_eq_append_take, List.reverse_append,
      List.length_reverse, lastN] at *
    by_cases h : n ≤ xs.length
    · have h0 : n - xs.length = 0 := by omega
      have h1 : xs.length + 1 - n = (xs.length - n) + 1 := by omega
      simp [h0, h1, ih]
    · have h0 : n - xs.length ≥ 1 := by omega
      have h1 : xs.length + 1 - n = 0 := by omega
      have h2 : xs.length - n = 0 := by omega
      have h3 : List.take (n - xs.length) [x] = [x] := by
        cases hnk : n - xs.length with
        | zero => omega
        | succ k => simp
      simp [h1, h3, ih, h2]

theorem range'_eq_cons {s n : Nat} (h : 1 ≤ n) :
    List.range' s n = s :: List.range' (s + 1) (n - 1) := by
  cases n with
  | zero => omega
  | succ k => simp [List.range'_succ]

theorem next_yield (x : BlockHeader) (xs : List BlockHeader) (cs c m : Nat)
    (db : BlockchainDatabase) :
    HeaderIter.next ⟨x :: xs, cs, c, false, m⟩ db
      = (PullStep.yielded (Except.ok x) ⟨xs, cs, c, false, m⟩, 0) := rfl

theorem next_error_state (st : IterState) (db : BlockchainDatabase)
    (h : st.is_error = true) :
    HeaderIter.next st db = (PullStep.finished, 0) := by
  rw [HeaderIter.next, if_pos h]

theorem next_empty_done (cs c m : Nat) (db : BlockchainDatabase)
    (h : IterState.next_chunk ⟨[], cs, c, false, m⟩ = []) :
    HeaderIter.next ⟨[], cs, c, false, m⟩ db = (PullStep.finished, 0) := by
  rw [HeaderIter.next]
  simp [h]

theorem next_fetch_ok (cs c m : Nat) (db : BlockchainDatabase)
    (headers : List BlockHeader)
    (hbn : IterState.next_chunk ⟨[], cs, c, false, m⟩ ≠ [])
    (hf : db.fetch_headers (IterState.next_chunk ⟨[], cs, c, false, m⟩)
            = Except.ok headers) :
    HeaderIter.next ⟨[], cs, c, false, m⟩ db
      = (popFront ⟨headers, cs, c + headers.length, false, m⟩, 1) := by
  rw [HeaderIter.next]
  simp [hbn, hf]

theorem next_fetch_error (cs c m : Nat) (db : BlockchainDatabase) (err : ChainStorageError)
    (hbn : IterState.next_chunk ⟨[], cs, c, false, m⟩ ≠ [])
    (hf : db.fetch_headers (IterState.next_chunk ⟨[], cs, c, false, m⟩)
            = Except.error err) :
    HeaderIter.next ⟨[], cs, c, false, m⟩ db
      = (PullStep.yielded (Except.error err) ⟨[], cs, c, true, m⟩, 1) := by
  rw [HeaderIter.next]
  simp [hbn, hf]

theorem iterRun_yield (fuel : Nat) (x : Except ChainStorageError BlockHeader)
    (st st2 : IterState) (k : Nat) (db : BlockchainDatabase)
    (h : HeaderIter.next st db = (PullStep.yielded x st2, k)) :
    iterRun (fuel + 1) st db =
      { items := x :: (iterRun fuel st2 db).items,
        outcome := (iterRun fuel st2 db).outcome,
        fetches := k + (iterRun fuel st2 db).fetches } := by
  rw [iterRun, h]

theorem iterRun_finished (fuel : Nat) (st : IterState) (k : Nat)
    (db : BlockchainDatabase)
    (h : HeaderIter.next st db = (PullStep.finished, k)) :
    iterRun (fuel + 1) st db = { items := [], outcome := Outcome.finished, fetches := k } := by
  rw [iterRun, h]

/-- Lemma A: under an exact storage, a run of the header iterator from a
state whose buffered chunk holds the headers of heights [j, c) and whose
cursor is c yields exactly the headers of heights [j, max] in ascending
order and finishes, provided the fuel covers the remaining pulls. -/

theorem iterRun_exact {f : Nat → BlockHeader} {db : BlockchainDatabase}
    (hdb : ExactHeaders db f) (m cs : Nat) :
    ∀ fuel j c, j ≤ c → c ≤ m + 1 → m + 2 - j ≤ fuel →
      ((iterRun fuel ⟨(List.range' j (c - j)).map f, cs, c, false, m⟩ db).items =
        (List.range' j (m + 1 - j)).map (fun n => Except.ok (f n)))
      ∧ (iterRun fuel ⟨(List.range' j (c - j)).map f, cs, c, false, m⟩ db).outcome
          = Outcome.finished := by
  intro fuel
  induction fuel with
  | zero => intro j c hjc hcm hfuel; omega
  | succ fuel ih =>
    intro j c hjc hcm hfuel
    rcases Nat.lt_or_ge j c with hlt | hge
    · -- nonempty buffered chunk: pop its first header
      have hrange : List.range' j (c - j) = j :: List.range' (j + 1) (c - (j + 1)) := by
        rw [range'_eq_cons (by omega)]
        congr 2
      have hnext : HeaderIter.next ⟨(List.range' j (c - j)).map f, cs, c, false, m⟩ db
          = (PullStep.yielded (Except.ok (f j))
              ⟨(List.range' (j + 1) (c - (j + 1))).map f, cs, c, false, m⟩, 0) := by
        rw [hrange, List.map_cons]
        exact next_yield _ _ _ _ _ _
      have hrec := ih (j + 1) c (by omega) hcm (by omega)
      rw [iterRun_yield fuel _ _ _ _ db hnext]
      refine ⟨?_, hrec.2⟩
      have hjm : m + 1 - j = (m + 1 - (j + 1)) + 1 := by omega
      simp only [hrec.1]
      rw [hjm, List.range'_succ, List.map_cons]
    · -- empty buffered chunk: j = c
      have hjc2 : j = c := by omega
      subst hjc2
      have hchunk : (List.range' j (j - j)).map f = ([] : List BlockHeader) := by simp
      rw [hchunk]
      rcases Nat.lt_or_ge m j with hjm | hjm
      · -- cursor past the max height: the next height range is empty
        have hbn : (IterState.next_chunk ⟨[], cs, j, false, m⟩) = [] := by
          rw [IterState.next_chunk]
          have h0 : min (j + cs) m + 1 - j = 0 := by
            have := Nat.min_le_right (j + cs) m
            omega
          simp only [h0, List.range']
        rw [iterRun_finished fuel _ _ db (next_empty_done cs j m db hbn)]
        have h1 : m + 1 - j = 0 := by omega
        simp [h1]
      · -- cursor still inside the range: fetch the next chunk
        have hminj : j ≤ min (j + cs) m := le_min (Nat.le_add_right j cs) hjm
        set L := min (j + cs) m + 1 - j with hL
        have hL1 : 1 ≤ L := by omega
        have hbn : (IterState.next_chunk ⟨[], cs, j, false, m⟩) = List.range' j L := by
          rw [IterState.next_chunk]
        have hbn_ne : List.range' j L ≠ [] := by
          rw [range'_eq_cons hL1]
          simp
        have hfetch : db.fetch_headers (List.range' j L)
            = Except.ok ((List.range' j L).map f) := hdb _
        have hnext : HeaderIter.next ⟨[], cs, j, false, m⟩ db
            = (popFront ⟨(List.range' j L).map f, cs, j + L, false, m⟩, 1) := by
          have := next_fetch_ok cs j m db ((List.range' j L).map f)
            (by rw [hbn]; exact hbn_ne) (by rw [hbn]; exact hfetch)
          simpa using this
        have hpop : popFront ⟨(List.range' j L).map f, cs, j + L, false, m⟩
            = PullStep.yielded (Except.ok (f j))
                ⟨(List.range' (j + 1) ((j + L) - (j + 1))).map f, cs, j + L, false, m⟩ := by
          rw [range'_eq_cons hL1, List.map_cons, popFront]
          have h2 : (j + L) - (j + 1) = L - 1 := by omega
          rw [h2]
        rw [hpop] at hnext
        have hcm2 : j + L ≤ m + 1 := by
          have := Nat.min_le_right (j + cs) m
          omega
        have hrec := ih (j + 1) (j + L) (by omega) hcm2 (by omega)
        rw [iterRun_yield fuel _ _ _ _ db hnext]
        refine ⟨?_, hrec.2⟩
        simp only [hrec.1]
        have hjm1 : m + 1 - j = (m + 1 - (j + 1)) + 1 := by omega
        rw [hjm1, List.range'_succ, List.map_cons]

theorem iterRun_exact_init {f : Nat → BlockHeader} {db : BlockchainDatabase}
    (hdb : ExactHeaders db f) (m cs : Nat) :
    ((iterRun (m + 2) (HeaderIter.new m cs) db).items =
      (List.range (m + 1)).map (fun n => Except.ok (f n)))
    ∧ (iterRun (m + 2) (HeaderIter.new m cs) db).outcome = Outcome.finished := by
  have h := iterRun_exact hdb m cs (m + 2) 0 0 (Nat.le_refl 0) (by omega) (by omega)
  simpa [HeaderIter.new, List.range_eq_range'] using h

theorem chunksOfGo_flatten (n : Nat) (hn : 1 ≤ n) :
    ∀ fuel l, l.length ≤ fuel → (chunksOfGo n fuel l).flatten = l := by
  intro fuel
  induction fuel with
  | zero =>
    intro l hl
    cases l with
    | nil => rfl
    | cons x xs => simp at hl
  | succ fuel ih =>
    intro l hl
    cases l with
    | nil => rfl
    | cons x xs =>
      have hl2 : ((x :: xs).drop n).length ≤ fuel := by
        simp only [List.length_drop, List.length_cons]
        simp only [List.length_cons] at hl
        omega
      rw [chunksOfGo, List.flatten_cons, ih _ hl2]
      exact List.take_append_drop n (x :: xs)

theorem chunksOf_flatten (n : Nat) (l : List Nat) (hn : 1 ≤ n) :
    (chunksOf n l).flatten = l :=
  chunksOfGo_flatten n hn l.length l (Nat.le_refl _)

/-- Lemma B: the chunked collection loop, under an exact storage, appends to
the accumulator the first (window - seen) matching pairs of the flattened
height list, in order. -/

theorem td_loop_exact {f : Nat → BlockHeader} {db : BlockchainDatabase}
    (hdb : ExactHeaders db f) (algo : PowAlgo) (W : Nat) :
    ∀ (chunks : List (List Nat)) (acc : List (Nat × Nat)), acc.length ≤ W →
      td_loop db algo W acc chunks =
        Except.ok (acc ++
          ((((chunks.flatten.map f).filter (algoMatch algo)).take (W - acc.length)).map tdProj)) := by
  intro chunks
  induction chunks with
  | nil =>
    intro acc hacc
    simp [td_loop]
  | cons c rest ih =>
    intro acc hacc
    rw [td_loop, hdb c]
    dsimp only
    set k := W - acc.length with hk
    set Fc := (List.filter (algoMatch algo) (List.map f c)) with hFc
    set Frest := (List.filter (algoMatch algo) (List.map f rest.flatten)) with hFrest
    have hsplit : List.filter (algoMatch algo) (List.map f ((c :: rest).flatten))
        = Fc ++ Frest := by
      rw [List.flatten_cons, List.map_append, List.filter_append]
    rw [hsplit, List.take_append_eq_append_take, List.map_append]
    have hlen2 : (acc ++ List.map tdProj (List.take k Fc)).length
        = acc.length + min k Fc.length := by
      simp [List.length_take]
    by_cases hif : (acc ++ List.map tdProj (List.take k Fc)).length = W
    · rw [if_pos hif]
      have hkF : k ≤ Fc.length := by
        rw [hlen2] at hif
        omega
      have h0 : k - Fc.length = 0 := by omega
      rw [h0]
      simp
    · rw [if_neg hif]
      have hFk : Fc.length < k := by
        rw [hlen2] at hif
        rcases Nat.lt_or_ge Fc.length k with h | h
        · exact h
        · exfalso
          apply hif
          omega
      have hacc2 : (acc ++ List.map tdProj (List.take k Fc)).length ≤ W := by
        rw [hlen2]
        omega
      rw [ih _ hacc2]
      rw [hlen2]
      have harith : W - (acc.length + min k Fc.length) = k - Fc.length := by omega
      rw [harith, List.append_assoc]

/-- Under an exact storage with at least one block of history, the target
difficulty collection returns exactly the most recent matching window in
ascending order. -/

theorem fetch_td_exact {f : Nat → BlockHeader} {db : BlockchainDatabase}
    (hdb : ExactHeaders db f) (rules : ConsensusManager) (H tip : BlockHeader)
    (htip : 1 ≤ tip.height) :
    fetch_target_difficulties rules db H tip
      = Except.ok (mostRecentWindow rules.difficulty_block_window H.pow.pow_algo f tip.height) := by
  rw [fetch_target_difficulties]
  dsimp only
  set W := rules.difficulty_block_window with hW
  by_cases hW0 : W = 0
  · rw [hW0]
    simp only [Nat.sub_zero, ite_true, if_pos rfl]
    rw [mostRecentWindow, lastN, Nat.sub_zero, List.drop_length]
  · have hW1 : 1 ≤ W := by omega
    rw [if_neg (by omega)]
    rw [td_loop_exact hdb H.pow.pow_algo W (chunksOf W ((List.range (tip.height + 1)).reverse)) []
      (by simp)]
    rw [chunksOf_flatten W _ hW1]
    dsimp only
    simp only [List.nil_append, List.length_nil, Nat.sub_zero]
    congr 1
    rw [List.map_reverse, List.filter_reverse, List.map_take, List.map_reverse]
    rw [reverse_take_reverse]
    rfl

/-- Under a storage whose successful fetches always return at least one and
at most the requested number of headers, the iterator finishes without
panicking. -/

theorem iterRun_partial_finishes {db : BlockchainDatabase}
    (hdb : PartialNonemptyHeaders db) (m : Nat) :
    ∀ fuel (chunk : List BlockHeader) (cs c : Nat), c ≤ m + 1 →
      (m + 2 - c) + chunk.length ≤ fuel →
      (iterRun fuel ⟨chunk, cs, c, false, m⟩ db).outcome = Outcome.finished := by
  intro fuel
  induction fuel with
  | zero => intro chunk cs c hc hfuel; omega
  | succ fuel ih =>
    intro chunk cs c hc hfuel
    cases chunk with
    | cons x rest =>
      rw [iterRun_yield fuel _ _ _ _ db (next_yield x rest cs c m db)]
      exact ih rest cs c hc (by simp at hfuel ⊢; omega)
    | nil =>
      rcases Nat.lt_or_ge m c with hmc | hmc
      · have hbn : (IterState.next_chunk ⟨[], cs, c, false, m⟩) = [] := by
          rw [IterState.next_chunk]
          have h0 : min (c + cs) m + 1 - c = 0 := by
            have := Nat.min_le_right (c + cs) m
            omega
          simp only [h0, List.range']
        rw [iterRun_finished fuel _ _ db (next_empty_done cs c m db hbn)]
      · have hminc : c ≤ min (c + cs) m := le_min (Nat.le_add_right c cs) hmc
        set L := min (c + cs) m + 1 - c with hL
        have hL1 : 1 ≤ L := by omega
        have hbn : (IterState.next_chunk ⟨[], cs, c, false, m⟩) = List.range' c L := by
          rw [IterState.next_chunk]
        have hbn_ne : IterState.next_chunk ⟨[], cs, c, false, m⟩ ≠ [] := by
          rw [hbn, range'_eq_cons hL1]
          simp
        obtain ⟨hs, hf, hlen1, hlen2⟩ := hdb _ hbn_ne
        have hlenL : hs.length ≤ L := by
          rw [hbn] at hlen2
          simpa using hlen2
        have hnext := next_fetch_ok cs c m db hs hbn_ne hf
        cases hs with
        | nil => simp at hlen1
        | cons h t =>
          rw [popFront] at hnext
          rw [iterRun_yield fuel _ _ _ _ db hnext]
          have hc2 : c + (h :: t).length ≤ m + 1 := by
            simp only [List.length_cons] at hlenL ⊢
            have := Nat.min_le_right (c + cs) m
            omega
          refine ih t cs (c + (h :: t).length) hc2 ?_
          simp only [List.length_cons] at hfuel hlenL ⊢
          omega

theorem accumulate_offsets_ok (f : Nat → BlockHeader) :
    ∀ (ns : List Nat) (acc : Int),
      accumulate_offsets (ns.map (fun n => Except.ok (f n))) acc
        = Except.ok (ns.foldl (fun a n => a + (f n).total_kernel_offset) acc) := by
  intro ns
  induction ns with
  | nil => intro acc; rfl
  | cons x xs ih => intro acc; rw [List.map_cons, accumulate_offsets, List.foldl_cons, ih]

theorem foldl_add_offsets (f : Nat → BlockHeader) :
    ∀ (ns : List Nat) (acc : Int),
      ns.foldl (fun a n => a + (f n).total_kernel_offset) acc
        = acc + (ns.map (fun n => (f n).total_kernel_offset)).sum := by
  intro ns
  induction ns with
  | nil => intro acc; simp
  | cons x xs ih =>
    intro acc
    rw [List.foldl_cons, ih, List.map_cons, List.sum_cons]
    ring

theorem fetch_total_offset_exact {f : Nat → BlockHeader} {db : BlockchainDatabase}
    (hdb : ExactHeaders db f) (height : Nat) :
    fetch_total_offset_commitment db height
      = Except.ok (commit (offsetTotal f height) 0) := by
  rw [fetch_total_offset_commitment]
  have hr := iterRun_exact_init hdb height 100
  rw [hr.1, accumulate_offsets_ok, foldl_add_offsets]
  rw [offsetTotal]
  norm_num

/-- From any state about to fetch, a storage error yields exactly one error
item, the run finishes on the very next pull, and only the one failing
fetch is ever issued, whatever fuel remains. -/

theorem iterRun_storage_error (st : IterState) (db : BlockchainDatabase)
    (e : ChainStorageError) (k : Nat)
    (h1 : st.is_error = false) (h2 : st.chunk = [])
    (h3 : st.next_chunk ≠ [])
    (h4 : db.fetch_headers st.next_chunk = Except.error e) :
    iterRun (k + 2) st db
      = { items := [Except.error e], outcome := Outcome.finished, fetches := 1 } := by
  obtain ⟨chunk, cs, c, err, m⟩ := st
  simp only at h1 h2
  subst h1; subst h2
  have hnext := next_fetch_error cs c m db e h3 h4
  rw [iterRun_yield (k + 1) _ _ _ _ db hnext]
  rw [iterRun_finished k _ _ db (next_error_state ⟨[], cs, c, true, m⟩ db rfl)]
  rfl

theorem get_median_append_some (l : List Nat) (t : Nat) :
    get_median_timestamp (l ++ [t]) = some (medianVal (l ++ [t])) := by
  cases l <;> rfl

/-- The median timestamp check for a non-genesis header under an exact
storage, characterised by the spec-modelled median. -/

theorem median_check_general (rules : ConsensusManager) (db : BlockchainDatabase)
    (f : Nat → BlockHeader) (H tip : BlockHeader)
    (hdb : ExactHeaders db f) (hng : is_genesis rules H = false) :
    ((H.height - rules.median_timestamp_count = tip.height) →
      check_median_timestamp rules db H tip = Except.ok ())
    ∧ ((H.height - rules.median_timestamp_count ≠ tip.height) →
      ((check_median_timestamp rules db H tip
          = Except.error (ValidationError.BlockHeaderError
              BlockHeaderValidationError.InvalidTimestamp)
        ↔ H.timestamp < medianVal
            (((List.range' (H.height - rules.median_timestamp_count)
                (tip.height - (H.height - rules.median_timestamp_count))).map f).map
                  (fun h => h.timestamp) ++ [tip.timestamp]))
      ∧ (¬ H.timestamp < medianVal
            (((List.range' (H.height - rules.median_timestamp_count)
                (tip.height - (H.height - rules.median_timestamp_count))).map f).map
                  (fun h => h.timestamp) ++ [tip.timestamp])
          → check_median_timestamp rules db H tip = Except.ok ()))) := by
  constructor
  · intro hst
    rw [check_median_timestamp, hng]
    simp only [Bool.false_eq_true, if_false]
    rw [if_pos hst]
  · intro hst
    have hbody : check_median_timestamp rules db H tip
        = if H.timestamp < medianVal
            (((List.range' (H.height - rules.median_timestamp_count)
                (tip.height - (H.height - rules.median_timestamp_count))).map f).map
                  (fun h => h.timestamp) ++ [tip.timestamp])
          then Except.error (ValidationError.BlockHeaderError
              BlockHeaderValidationError.InvalidTimestamp)
          else Except.ok () := by
      rw [check_median_timestamp, hng]
      simp only [Bool.false_eq_true, if_false]
      rw [if_neg hst, hdb _]
      dsimp only
      rw [get_median_append_some]
    rw [hbody]
    by_cases hlt : H.timestamp < medianVal
        (((List.range' (H.height - rules.median_timestamp_count)
            (tip.height - (H.height - rules.median_timestamp_count))).map f).map
              (fun h => h.timestamp) ++ [tip.timestamp])
    · rw [if_pos hlt]
      exact ⟨⟨fun _ => hlt, fun _ => rfl⟩, fun hn => absurd hlt hn⟩
    · rw [if_neg hlt]
      exact ⟨⟨fun hcontr => absurd hcontr (by simp), fun hc => absurd hc hlt⟩, fun _ => rfl⟩

/-- The length of a most-recent window never exceeds the requested size. -/

theorem lastN_length_le (n : Nat) (l : List α) : (lastN n l).length ≤ n := by
  rw [lastN, List.length_drop]
  omega

/-! ## The claims -/

/-- C1 counterexample: a header of height 0 whose hash equals the configured
genesis hash but whose recorded target difficulty is 7 is rejected with
InvalidTargetDifficulty, so validate does not succeed regardless of the
difficulty fields and the difficulty check is not skipped entirely. -/
theorem C1_genesis_bypass_counterexample :
    is_genesis cRules c1BadHeader = true
    ∧ HorizonHeadersValidator.validate cRules c1Db cGtdOne c1BadHeader
        = Except.error (ValidationError.BlockHeaderError
            (BlockHeaderValidationError.ProofOfWorkError PowError.InvalidTargetDifficulty))
    ∧ HorizonHeadersValidator.validate cRules c1Db cGtdOne c1BadHeader ≠ Except.ok () := by
  refine ⟨by decide, by decide, by decide⟩

/-- C1 (amended): for every header recognised as genesis (height 0 and hash
equal to the configured genesis hash), provided the tip fetch succeeds, the
median-timestamp check is skipped and the target is pinned to 1, but the
difficulty comparisons still run: validate returns Ok if and only if the
recorded target difficulty equals 1 and the achieved difficulty is at least
1, regardless of the timestamp field. -/
theorem C1_genesis_bypass_amended (rules : ConsensusManager) (db : BlockchainDatabase)
    (gtd : GetTargetDifficulty) (H tip : BlockHeader)
    (htip : db.fetch_tip_header = Except.ok tip)
    (hg : is_genesis rules H = true) :
    HorizonHeadersValidator.validate rules db gtd H = Except.ok ()
      ↔ (H.pow.target_difficulty = 1 ∧ 1 ≤ H.achieved_difficulty) := by
  rw [HorizonHeadersValidator.validate, htip]
  dsimp only
  have hmed : check_median_timestamp rules db H tip = Except.ok () := by
    rw [check_median_timestamp, hg]
    simp
  rw [hmed]
  dsimp only
  rw [check_achieved_and_target_difficulty, hg]
  simp only [if_true]
  by_cases h1 : H.pow.target_difficulty = 1
  · rw [if_neg (by simpa using h1)]
    by_cases h2 : H.achieved_difficulty < 1
    · rw [if_pos h2]
      constructor
      · intro hcontr; exact absurd hcontr (by simp)
      · intro hcontr; omega
    · rw [if_neg h2]
      constructor
      · intro _; exact ⟨h1, by omega⟩
      · intro _; rfl
  · rw [if_pos (by simpa using h1)]
    constructor
    · intro hcontr; exact absurd hcontr (by simp)
    · intro hcontr; exact absurd hcontr.1 h1

/-- C1 witness: the amended statement applied to a concrete genesis header
with recorded target 1 and achieved difficulty 1. -/
theorem C1_genesis_bypass_witness :
    c1Db.fetch_tip_header = Except.ok c1Tip
    ∧ is_genesis cRules c1GoodHeader = true
    ∧ (HorizonHeadersValidator.validate cRules c1Db cGtdOne c1GoodHeader = Except.ok ()
        ↔ (c1GoodHeader.pow.target_difficulty = 1 ∧ 1 ≤ c1GoodHeader.achieved_difficulty)) :=
  ⟨rfl, by decide,
    C1_genesis_bypass_amended cRules c1Db cGtdOne c1GoodHeader c1Tip rfl (by decide)⟩

/-- C2: under a storage whose header requests are answered exactly and whose
UTXO and kernel fetches succeed, the final state validator returns Ok if and
only if the sum of all UTXO commitments equals the commitment of the
emission at the horizon height (zero blinding) plus the sum of kernel
excesses plus the commitment (with value 0) of the sum of the kernel offsets
of all headers at heights 0..=H; on mismatch it returns the balance failure
custom error whose message carries the height H. -/
theorem C2_final_state_balance (rules : ConsensusManager) (db : BlockchainDatabase)
    (f : Nat → BlockHeader) (us : List UTXO) (ks : List Kernel) (h : Nat)
    (hdb : ExactHeaders db f)
    (hu : db.fetch_all_utxos = Except.ok us)
    (hk : db.fetch_all_kernels = Except.ok ks) :
    (HorizonFinalStateValidator.validate rules db h = Except.ok ()
      ↔ utxoSum us = (commit 0 (rules.supply_at_block h) + kernelSum ks)
          + commit (offsetTotal f h) 0)
    ∧ (utxoSum us ≠ (commit 0 (rules.supply_at_block h) + kernelSum ks)
          + commit (offsetTotal f h) 0
        → HorizonFinalStateValidator.validate rules db h
            = Except.error (ValidationError.CustomError (balance_mismatch_message h))) := by
  have hv : HorizonFinalStateValidator.validate rules db h
      = if utxoSum us = (commit 0 (rules.supply_at_block h) + kernelSum ks)
            + commit (offsetTotal f h) 0
        then Except.ok ()
        else Except.error (ValidationError.CustomError (balance_mismatch_message h)) := by
    rw [HorizonFinalStateValidator.validate, fetch_total_offset_exact hdb h]
    rw [fetch_aggregate_utxo_commitment, hu, fetch_aggregate_kernel_excess, hk]
    rw [get_emission_commitment_at]
    dsimp only
    by_cases heq : utxoSum us = (commit 0 (rules.supply_at_block h) + kernelSum ks)
        + commit (offsetTotal f h) 0
    · rw [if_pos heq, if_neg]
      simp only [utxoSum, kernelSum] at heq
      simpa using heq
    · rw [if_neg heq, if_pos]
      simp only [utxoSum, kernelSum] at heq
      simpa using heq
  rw [hv]
  by_cases heq : utxoSum us = (commit 0 (rules.supply_at_block h) + kernelSum ks)
      + commit (offsetTotal f h) 0
  · rw [if_pos heq]
    exact ⟨by simp [heq], fun hne => absurd heq hne⟩
  · rw [if_neg heq]
    refine ⟨?_, fun _ => rfl⟩
    constructor
    · intro hcontr
      exact absurd hcontr (by simp)
    · intro hcontr
      exact absurd hcontr heq

/-- C2 witness: a concrete balanced horizon state (one UTXO committing the
emission 10 and the three kernel offsets of heights 0..=2) for which the
equivalence is instantiated. -/
theorem C2_final_state_balance_witness :
    ExactHeaders c2Db c2F
    ∧ c2Db.fetch_all_utxos = Except.ok c2Utxos
    ∧ c2Db.fetch_all_kernels = Except.ok c2Kernels
    ∧ ((HorizonFinalStateValidator.validate c2Rules c2Db 2 = Except.ok ()
        ↔ utxoSum c2Utxos = (commit 0 (c2Rules.supply_at_block 2) + kernelSum c2Kernels)
            + commit (offsetTotal c2F 2) 0)
      ∧ (utxoSum c2Utxos ≠ (commit 0 (c2Rules.supply_at_block 2) + kernelSum c2Kernels)
            + commit (offsetTotal c2F 2) 0
          → HorizonFinalStateValidator.validate c2Rules c2Db 2
              = Except.error (ValidationError.CustomError (balance_mismatch_message 2)))) :=
  ⟨fun _ => rfl, rfl, rfl,
    C2_final_state_balance c2Rules c2Db c2F c2Utxos c2Kernels 2 (fun _ => rfl) rfl rfl⟩

/-- C3 counterexample: a non-genesis header whose achieved difficulty 5 is
below the recomputed target 10 and whose recorded target 9 also differs is
rejected with InvalidTargetDifficulty, not with AchievedDifficultyTooLow:
the recorded-target comparison runs first. -/
theorem C3_difficulty_error_order_counterexample :
    c3BadHeader.achieved_difficulty < 10
    ∧ c3BadHeader.pow.target_difficulty ≠ 10
    ∧ HorizonHeadersValidator.validate cRules c3Db cGtdTen c3BadHeader
        = Except.error (ValidationError.BlockHeaderError
            (BlockHeaderValidationError.ProofOfWorkError PowError.InvalidTargetDifficulty))
    ∧ HorizonHeadersValidator.validate cRules c3Db cGtdTen c3BadHeader
        ≠ Except.error (ValidationError.BlockHeaderError
            (BlockHeaderValidationError.ProofOfWorkError PowError.AchievedDifficultyTooLow)) := by
  refine ⟨by decide, by decide, by decide, by decide⟩

/-- C3 (amended): for a non-genesis header that passes the median timestamp
check, with the retargeting helper succeeding with some target: if the
recorded target differs from the recomputed target, validate fails with
InvalidTargetDifficulty (regardless of the achieved difficulty); if the
recorded target matches and the achieved difficulty is below the target,
validate fails with AchievedDifficultyTooLow. -/
theorem C3_difficulty_error_order_amended (rules : ConsensusManager)
    (db : BlockchainDatabase) (gtd : GetTargetDifficulty) (H tip : BlockHeader)
    (tds : List (Nat × Nat)) (target : Nat)
    (htip : db.fetch_tip_header = Except.ok tip)
    (hng : is_genesis rules H = false)
    (hts : check_median_timestamp rules db H tip = Except.ok ())
    (htd : fetch_target_difficulties rules db H tip = Except.ok tds)
    (hgtd : gtd tds rules.difficulty_block_window rules.diff_target_block_interval
        (rules.min_pow_difficulty H.pow.pow_algo) rules.difficulty_max_block_interval
        = Except.ok target) :
    (H.pow.target_difficulty ≠ target →
      HorizonHeadersValidator.validate rules db gtd H
        = Except.error (ValidationError.BlockHeaderError
            (BlockHeaderValidationError.ProofOfWorkError PowError.InvalidTargetDifficulty)))
    ∧ (H.pow.target_difficulty = target → H.achieved_difficulty < target →
      HorizonHeadersValidator.validate rules db gtd H
        = Except.error (ValidationError.BlockHeaderError
            (BlockHeaderValidationError.ProofOfWorkError PowError.AchievedDifficultyTooLow))) := by
  have hv : HorizonHeadersValidator.validate rules db gtd H
      = check_achieved_and_target_difficulty rules db gtd H tip := by
    rw [HorizonHeadersValidator.validate, htip]
    dsimp only
    rw [hts]
  rw [hv, check_achieved_and_target_difficulty, hng]
  simp only [Bool.false_eq_true, if_false]
  rw [htd]
  dsimp only
  rw [hgtd]
  dsimp only
  constructor
  · intro hne
    rw [if_pos hne]
  · intro heq hlt
    rw [if_neg (by simpa using heq), if_pos hlt]

/-- C3 witness: the amended statement applied to a concrete header whose
recorded target matches the recomputed target 10 while its achieved
difficulty 5 falls short, yielding AchievedDifficultyTooLow. -/
theorem C3_difficulty_error_order_witness :
    c3Db.fetch_tip_header = Except.ok (c3F 100)
    ∧ is_genesis cRules c3WitHeader = false
    ∧ check_median_timestamp cRules c3Db c3WitHeader (c3F 100) = Except.ok ()
    ∧ fetch_target_difficulties cRules c3Db c3WitHeader (c3F 100)
        = Except.ok [(30, 1), (40, 1), (50, 1)]
    ∧ cGtdTen [(30, 1), (40, 1), (50, 1)] cRules.difficulty_block_window
        cRules.diff_target_block_interval (cRules.min_pow_difficulty c3WitHeader.pow.pow_algo)
        cRules.difficulty_max_block_interval = Except.ok 10
    ∧ ((c3WitHeader.pow.target_difficulty ≠ 10 →
        HorizonHeadersValidator.validate cRules c3Db cGtdTen c3WitHeader
          = Except.error (ValidationError.BlockHeaderError
              (BlockHeaderValidationError.ProofOfWorkError PowError.InvalidTargetDifficulty)))
      ∧ (c3WitHeader.pow.target_difficulty = 10 → c3WitHeader.achieved_difficulty < 10 →
        HorizonHeadersValidator.validate cRules c3Db cGtdTen c3WitHeader
          = Except.error (ValidationError.BlockHeaderError
              (BlockHeaderValidationError.ProofOfWorkError PowError.AchievedDifficultyTooLow)))) :=
  ⟨rfl, by decide, by decide, by decide, rfl,
    C3_difficulty_error_order_amended cRules c3Db cGtdTen c3WitHeader (c3F 100)
      [(30, 1), (40, 1), (50, 1)] 10 rfl (by decide) (by decide) (by decide) rfl⟩

/-- C4 counterexample: with the tip at height 0 and a matching header at
height 0, the early not-enough-history return yields the empty window even
though the most recent matching header exists, so the result is not the W
most recent matching headers. -/
theorem C4_target_difficulty_window_counterexample :
    fetch_target_difficulties cRules c4bDb c4Header (c4bF 0) = Except.ok []
    ∧ mostRecentWindow cRules.difficulty_block_window c4Header.pow.pow_algo c4bF
        (c4bF 0).height = [(7, 9)]
    ∧ fetch_target_difficulties cRules c4bDb c4Header (c4bF 0)
        ≠ Except.ok (mostRecentWindow cRules.difficulty_block_window
            c4Header.pow.pow_algo c4bF (c4bF 0).height) := by
  refine ⟨by decide, by decide, by decide⟩

/-- C4 (amended): for every tip of height at least 1, under an exact
storage, fetch_target_difficulties returns exactly the at-most-W most
recent (timestamp, difficulty) pairs of matching-algorithm headers at
heights 0..=tip, in ascending height order, with length at most W (when the
tip height is 0 the early return produces the empty list instead); in
particular for W = 3 and matching headers at heights 1..5 it returns the
pairs of heights 3, 4, 5 in that order. -/
theorem C4_target_difficulty_window_amended :
    (∀ (rules : ConsensusManager) (db : BlockchainDatabase) (f : Nat → BlockHeader)
        (H tip : BlockHeader), ExactHeaders db f → 1 ≤ tip.height →
      fetch_target_difficulties rules db H tip
          = Except.ok (mostRecentWindow rules.difficulty_block_window H.pow.pow_algo f
              tip.height)
        ∧ (mostRecentWindow rules.difficulty_block_window H.pow.pow_algo f
            tip.height).length ≤ rules.difficulty_block_window)
    ∧ fetch_target_difficulties cRules c4Db c4Header (c4F 5)
        = Except.ok [(103, 203), (104, 204), (105, 205)] := by
  constructor
  · intro rules db f H tip hdb htip
    exact ⟨fetch_td_exact hdb rules H tip htip, lastN_length_le _ _⟩
  · decide

/-- C4 witness: the amended statement applied to the concrete five-header
scenario of the claim. -/
theorem C4_target_difficulty_window_witness :
    ExactHeaders c4Db c4F
    ∧ 1 ≤ (c4F 5).height
    ∧ fetch_target_difficulties cRules c4Db c4Header (c4F 5)
        = Except.ok (mostRecentWindow cRules.difficulty_block_window
            c4Header.pow.pow_algo c4F (c4F 5).height) :=
  ⟨fun _ => rfl, by decide,
    (C4_target_difficulty_window_amended.1 cRules c4Db c4F c4Header (c4F 5)
      (fun _ => rfl) (by decide)).1⟩

set_option maxRecDepth 40000 in
/-- C5: under an exact storage, the chunked header scanner yields the header
of each height 0..=max exactly once, in ascending order, and then finishes;
for max height 250 and chunk size 100 it yields 251 items and issues at most
3 storage fetches. -/
theorem C5_header_iter_scan :
    (∀ (f : Nat → BlockHeader) (db : BlockchainDatabase) (m cs : Nat),
      ExactHeaders db f → 1 ≤ cs →
      (iterRun (m + 2) (HeaderIter.new m cs) db).items
          = (List.range (m + 1)).map (fun n => Except.ok (f n))
        ∧ (iterRun (m + 2) (HeaderIter.new m cs) db).outcome = Outcome.finished)
    ∧ ((iterRun 252 (HeaderIter.new 250 100) c5Db).items.length = 251
        ∧ (iterRun 252 (HeaderIter.new 250 100) c5Db).outcome = Outcome.finished
        ∧ (iterRun 252 (HeaderIter.new 250 100) c5Db).fetches ≤ 3) := by
  constructor
  · intro f db m cs hdb _
    exact iterRun_exact_init hdb m cs
  · decide

/-- C5 witness: the general statement applied to the concrete exact storage
of 251 headers with chunk size 100. -/
theorem C5_header_iter_scan_witness :
    ExactHeaders c5Db c5F
    ∧ 1 ≤ 100
    ∧ ((iterRun 252 (HeaderIter.new 250 100) c5Db).items
          = (List.range 251).map (fun n => Except.ok (c5F n))
        ∧ (iterRun 252 (HeaderIter.new 250 100) c5Db).outcome = Outcome.finished) :=
  ⟨fun _ => rfl, by decide,
    C5_header_iter_scan.1 c5F c5Db 250 100 (fun _ => rfl) (by decide)⟩

/-- C6: whenever a pull performs a storage fetch that fails, the scanner
yields exactly one error item carrying that storage error, the run finishes
on the next pull whatever fuel remains, and only that single fetch is ever
issued; moreover from the failed state every later pull returns nothing and
performs no storage fetch at all, for any storage. -/
theorem C6_storage_error_single_item :
    (∀ (st : IterState) (db : BlockchainDatabase) (e : ChainStorageError) (k : Nat),
      st.is_error = false → st.chunk = [] → st.next_chunk ≠ [] →
      db.fetch_headers st.next_chunk = Except.error e →
      iterRun (k + 2) st db
        = { items := [Except.error e], outcome := Outcome.finished, fetches := 1 })
    ∧ (∀ (st : IterState) (db : BlockchainDatabase), st.is_error = true →
      HeaderIter.next st db = (PullStep.finished, 0)) :=
  ⟨iterRun_storage_error, next_error_state⟩

/-- C6 witness: a fresh scanner over a storage whose fetches fail yields the
single error item and finishes with exactly one fetch. -/
theorem C6_storage_error_single_item_witness :
    (HeaderIter.new 5 2).is_error = false
    ∧ (HeaderIter.new 5 2).chunk = []
    ∧ (HeaderIter.new 5 2).next_chunk ≠ []
    ∧ c6Db.fetch_headers (HeaderIter.new 5 2).next_chunk = Except.error "storage failure"
    ∧ iterRun 2 (HeaderIter.new 5 2) c6Db
        = { items := [Except.error "storage failure"], outcome := Outcome.finished,
            fetches := 1 } :=
  ⟨rfl, rfl, by decide, rfl,
    C6_storage_error_single_item.1 (HeaderIter.new 5 2) c6Db "storage failure" 0
      rfl rfl (by decide) rfl⟩

/-- C7 counterexample: a successful fetch that returns zero headers for a
nonempty request drives the source expression chunk.remove(0) into a panic:
the pull is not total. -/
theorem C7_short_fetch_termination_counterexample :
    c7Db.fetch_headers [0] = Except.ok []
    ∧ (iterRun 1 (HeaderIter.new 0 100) c7Db).outcome = Outcome.panicked := by
  refine ⟨rfl, by decide⟩

/-- C7 (amended): if every successful fetch returns at least one and at most
the requested number of headers, the scanner advances by what it received
and terminates without looping or panicking; a successful fetch returning
zero headers for a nonempty request instead panics inside the pull. -/
theorem C7_short_fetch_termination_amended :
    ∀ (db : BlockchainDatabase) (m cs : Nat), PartialNonemptyHeaders db →
      (iterRun (m + 2) (HeaderIter.new m cs) db).outcome = Outcome.finished := by
  intro db m cs hdb
  exact iterRun_partial_finishes hdb m (m + 2) [] cs 0 (by omega) (by simp)

/-- C7 witness: a storage that always returns exactly one header per request
(fewer than requested) still lets the scanner finish. -/
theorem C7_short_fetch_termination_witness :
    PartialNonemptyHeaders c7PartialDb
    ∧ (iterRun (5 + 2) (HeaderIter.new 5 3) c7PartialDb).outcome = Outcome.finished := by
  have hp : PartialNonemptyHeaders c7PartialDb := by
    intro ns hne
    refine ⟨(ns.map c5F).take 1, rfl, ?_, ?_⟩
    · cases ns with
      | nil => exact absurd rfl hne
      | cons x xs => simp
    · cases ns with
      | nil => exact absurd rfl hne
      | cons x xs =>
        simp only [List.length_take, List.length_map, List.length_cons]
        omega
  exact ⟨hp, C7_short_fetch_termination_amended c7PartialDb 5 3 hp⟩

/-- C8: for every non-genesis header under an exact storage, the median
timestamp check passes trivially when the window start equals the tip
height, and otherwise fails with InvalidTimestamp exactly when the header
timestamp is below the median of the timestamps of the headers at heights
[start, tip) with the tip timestamp appended, succeeding otherwise; in
particular with a tip at height 100, median window 5 and timestamps
10..50 at heights 96..100, a new header at height 101 with timestamp 25
fails with InvalidTimestamp and one with timestamp 35 passes. -/
theorem C8_median_timestamp_check :
    (∀ (rules : ConsensusManager) (db : BlockchainDatabase) (f : Nat → BlockHeader)
        (H tip : BlockHeader), ExactHeaders db f → is_genesis rules H = false →
      ((H.height - rules.median_timestamp_count = tip.height) →
        check_median_timestamp rules db H tip = Except.ok ())
      ∧ ((H.height - rules.median_timestamp_count ≠ tip.height) →
        ((check_median_timestamp rules db H tip
            = Except.error (ValidationError.BlockHeaderError
                BlockHeaderValidationError.InvalidTimestamp)
          ↔ H.timestamp < medianVal
              (((List.range' (H.height - rules.median_timestamp_count)
                  (tip.height - (H.height - rules.median_timestamp_count))).map f).map
                    (fun h => h.timestamp) ++ [tip.timestamp]))
        ∧ (¬ H.timestamp < medianVal
              (((List.range' (H.height - rules.median_timestamp_count)
                  (tip.height - (H.height - rules.median_timestamp_count))).map f).map
                    (fun h => h.timestamp) ++ [tip.timestamp])
            → check_median_timestamp rules db H tip = Except.ok ()))))
    ∧ check_median_timestamp cRules c3Db c8Header25 (c3F 100)
        = Except.error (ValidationError.BlockHeaderError
            BlockHeaderValidationError.InvalidTimestamp)
    ∧ check_median_timestamp cRules c3Db c8Header35 (c3F 100) = Except.ok () := by
  refine ⟨fun rules db f H tip hdb hng => median_check_general rules db f H tip hdb hng,
    by decide, by decide⟩

/-- C8 witness: the general statement applied to the concrete window of the
claim (tip at height 100, window 5, timestamps 10..50). -/
theorem C8_median_timestamp_check_witness :
    ExactHeaders c3Db c3F
    ∧ is_genesis cRules c8Header25 = false
    ∧ (((c8Header25.height - cRules.median_timestamp_count = (c3F 100).height) →
        check_median_timestamp cRules c3Db c8Header25 (c3F 100) = Except.ok ())
      ∧ ((c8Header25.height - cRules.median_timestamp_count ≠ (c3F 100).height) →
        ((check_median_timestamp cRules c3Db c8Header25 (c3F 100)
            = Except.error (ValidationError.BlockHeaderError
                BlockHeaderValidationError.InvalidTimestamp)
          ↔ c8Header25.timestamp < medianVal
              (((List.range' (c8Header25.height - cRules.median_timestamp_count)
                  ((c3F 100).height - (c8Header25.height - cRules.median_timestamp_count))).map
                    c3F).map (fun h => h.timestamp) ++ [(c3F 100).timestamp]))
        ∧ (¬ c8Header25.timestamp < medianVal
              (((List.range' (c8Header25.height - cRules.median_timestamp_count)
                  ((c3F 100).height - (c8Header25.height - cRules.median_timestamp_count))).map
                    c3F).map (fun h => h.timestamp) ++ [(c3F 100).timestamp])
            → check_median_timestamp cRules c3Db c8Header25 (c3F 100) = Except.ok ())))) :=
  ⟨fun _ => rfl, by decide,
    C8_median_timestamp_check.1 cRules c3Db c3F c8Header25 (c3F 100) (fun _ => rfl) (by decide)⟩

/-- C9: both validators are pure functions of the consensus rules, the
storage contents, the retargeting model and the input, so calling validate
twice with identical inputs and identical storage state produces identical
results; the embedding is state-passing and no call mutates the storage or
any validator field. -/
theorem C9_validate_deterministic :
    ∀ (rules : ConsensusManager) (db : BlockchainDatabase) (gtd : GetTargetDifficulty)
      (H : BlockHeader) (horizon_height : Nat),
      HorizonHeadersValidator.validate rules db gtd H
          = HorizonHeadersValidator.validate rules db gtd H
      ∧ HorizonFinalStateValidator.validate rules db horizon_height
          = HorizonFinalStateValidator.validate rules db horizon_height :=
  fun _ _ _ _ _ => ⟨rfl, rfl⟩

/-- C10: the header validator never relates the validated header height to
the tip height: a well-typed header one million heights above the tip still
validates successfully (heights are only used to compute window starts via
saturating subtraction). -/
theorem C10_no_tip_height_relation :
    c10Db.fetch_tip_header = Except.ok c10Tip
    ∧ c10Header.height = c10Tip.height + 1000000
    ∧ HorizonHeadersValidator.validate cRules c10Db cGtdOne c10Header = Except.ok () := by
  refine ⟨rfl, by decide, by decide⟩
